import Mathlib

/-!
Verification of the payout calculation and submission review engine of the
clipper-program repository.  Numbers are embedded as rationals (JS `number`
arithmetic on the exact decimal inputs used here), and the JS idioms
`x || d` (falsy-zero fallback) and `x ?? d` (nullish fallback) are embedded
explicitly.  The remote submission repository (the Whop API) is not part of
the repository's sources; where a claim depends on its behaviour it is
modelled from the spec and marked as such.
-/

/-- JS `Math.round(q * 100) / 100`: round to 2 decimal places, halves up. -/
def round2 (q : ℚ) : ℚ := (⌊q * 100 + 1 / 2⌋ : ℤ) / 100

/-- JS `Math.round`: nearest integer, halves toward positive infinity. -/
def jsRound (q : ℚ) : ℤ := ⌊q + 1 / 2⌋

/-- JS `x || 0` on a number: `0` is falsy, so this is the identity on numbers. -/
def jsOrZero (x : ℚ) : ℚ := if x = 0 then 0 else x

/-- JS `o || d` on an optional number: `undefined` and `0` both fall back to `d`. -/
def jsOr (o : Option ℚ) (d : ℚ) : ℚ :=
  match o with
  | none => d
  | some x => if x = 0 then d else x

/-- Source `src/types/clipper.ts`: the subset of `CampaignConfig` read by
`calculatePayout`, `meetsMinimumThreshold` and `minimumViewsForPayout`. -/
structure RateConfig where
  cpmRate : ℚ
  flatFee : ℚ
  bonusRate : Option ℚ
  minPayoutThreshold : ℚ
  maxPayoutCap : ℚ
deriving DecidableEq, Repr

/-- Source `src/types/clipper.ts`: `PayoutCalculation` output record. -/
structure PayoutCalculation where
  submissionId : String
  viewCount : ℚ
  cpmPayout : ℚ
  flatFee : ℚ
  bonusPayout : ℚ
  grossTotal : ℚ
  cappedTotal : ℚ
  finalPayout : ℚ
  meetsMinimum : Bool
  wasCapped : Bool
  currency : String
deriving DecidableEq, Repr

/-- Source `src/types/clipper.ts` lines 154-182: `calculatePayout`.  The JS
ternary `config.bonusRate ? (viewCount / 1000) * config.bonusRate : 0` treats
both `undefined` and `0` as falsy. -/
def calculatePayout (viewCount : ℚ) (config : RateConfig) : PayoutCalculation :=
  let cpmPayout := viewCount / 1000 * config.cpmRate
  let flatFee := jsOrZero config.flatFee
  let bonusPayout :=
    match config.bonusRate with
    | none => 0
    | some b => if b = 0 then 0 else viewCount / 1000 * b
  let grossTotal := cpmPayout + flatFee + bonusPayout
  let cappedTotal := min grossTotal config.maxPayoutCap
  let meetsMinimum := decide (config.minPayoutThreshold ≤ cappedTotal)
  let finalPayout := if meetsMinimum then cappedTotal else 0
  { submissionId := ""
    viewCount := viewCount
    cpmPayout := round2 cpmPayout
    flatFee := flatFee
    bonusPayout := round2 bonusPayout
    grossTotal := round2 grossTotal
    cappedTotal := round2 cappedTotal
    finalPayout := round2 finalPayout
    meetsMinimum := meetsMinimum
    wasCapped := decide (config.maxPayoutCap < grossTotal)
    currency := "usd" }

/-- Source `src/types/clipper.ts` lines 187-194: `meetsMinimumThreshold`. -/
def meetsMinimumThreshold (viewCount : ℚ) (config : RateConfig) : Bool :=
  decide (config.minPayoutThreshold ≤ viewCount / 1000 * config.cpmRate + jsOrZero config.flatFee)

/-- Source `src/types/clipper.ts` lines 199-205: `minimumViewsForPayout`. -/
def minimumViewsForPayout (config : RateConfig) : ℤ :=
  let remainingAfterFlat := config.minPayoutThreshold - jsOrZero config.flatFee
  if remainingAfterFlat ≤ 0 then 0
  else ⌈remainingAfterFlat / config.cpmRate * 1000⌉

/-- Written from the words of claim C2 (not from the source): the payout
computation with `grossTotal` formed from the already-rounded `cpmPayout` and
`bonusPayout`, `cappedTotal = round2(min(grossTotal, maxPayoutCap))` over that
rounded `grossTotal`, and `meetsMinimum` / `wasCapped` judged on those rounded
totals.  Compared against `calculatePayout` to settle C2. -/
def calculatePayoutClaimC2 (viewCount : ℚ) (config : RateConfig) : PayoutCalculation :=
  let cpmPayout := round2 (viewCount / 1000 * config.cpmRate)
  let bonusPayout :=
    match config.bonusRate with
    | none => 0
    | some b => round2 (viewCount / 1000 * b)
  let grossTotal := round2 (cpmPayout + config.flatFee + bonusPayout)
  let cappedTotal := round2 (min grossTotal config.maxPayoutCap)
  { submissionId := ""
    viewCount := viewCount
    cpmPayout := cpmPayout
    flatFee := config.flatFee
    bonusPayout := bonusPayout
    grossTotal := grossTotal
    cappedTotal := cappedTotal
    finalPayout := if config.minPayoutThreshold ≤ cappedTotal then cappedTotal else 0
    meetsMinimum := decide (config.minPayoutThreshold ≤ cappedTotal)
    wasCapped := decide (config.maxPayoutCap < grossTotal)
    currency := "usd" }

/-- Written from the words of claim C2 as amended: every intermediate quantity
is unrounded; each monetary output field is `round2` of its unrounded value,
and the booleans are judged on the unrounded totals. -/
def calculatePayoutClaimC2Amended (viewCount : ℚ) (config : RateConfig) : PayoutCalculation :=
  { submissionId := ""
    viewCount := viewCount
    cpmPayout := round2 (viewCount / 1000 * config.cpmRate)
    flatFee := jsOrZero config.flatFee
    bonusPayout :=
      round2 (match config.bonusRate with
              | none => 0
              | some b => if b = 0 then 0 else viewCount / 1000 * b)
    grossTotal :=
      round2 (viewCount / 1000 * config.cpmRate + jsOrZero config.flatFee +
        match config.bonusRate with
        | none => 0
        | some b => if b = 0 then 0 else viewCount / 1000 * b)
    cappedTotal :=
      round2 (min (viewCount / 1000 * config.cpmRate + jsOrZero config.flatFee +
        match config.bonusRate with
        | none => 0
        | some b => if b = 0 then 0 else viewCount / 1000 * b) config.maxPayoutCap)
    finalPayout :=
      round2 (if config.minPayoutThreshold ≤
          min (viewCount / 1000 * config.cpmRate + jsOrZero config.flatFee +
            match config.bonusRate with
            | none => 0
            | some b => if b = 0 then 0 else viewCount / 1000 * b) config.maxPayoutCap
        then min (viewCount / 1000 * config.cpmRate + jsOrZero config.flatFee +
            match config.bonusRate with
            | none => 0
            | some b => if b = 0 then 0 else viewCount / 1000 * b) config.maxPayoutCap
        else 0)
    meetsMinimum :=
      decide (config.minPayoutThreshold ≤
        min (viewCount / 1000 * config.cpmRate + jsOrZero config.flatFee +
          match config.bonusRate with
          | none => 0
          | some b => if b = 0 then 0 else viewCount / 1000 * b) config.maxPayoutCap)
    wasCapped :=
      decide (config.maxPayoutCap <
        viewCount / 1000 * config.cpmRate + jsOrZero config.flatFee +
          match config.bonusRate with
          | none => 0
          | some b => if b = 0 then 0 else viewCount / 1000 * b)
    currency := "usd" }

/-- Source `src/lib/config.ts`: the `clipper` section of the loaded config. -/
structure ClipperConfig where
  defaultCpmRate : ℚ
  minPayoutThreshold : ℚ
  maxPayoutCap : ℚ
  autoApproveHours : ℚ
deriving DecidableEq, Repr

/-- Source `src/lib/config.ts` lines 22-27: the schema defaults
(`5.00`, `1.00`, `500.00`, `48`). -/
def defaultClipperConfig : ClipperConfig :=
  { defaultCpmRate := 5
    minPayoutThreshold := 1
    maxPayoutCap := 500
    autoApproveHours := 48 }

/-- The subset of `Partial<CampaignConfig>` read by the submission service
(`cpmRate`, `flatFee`, `bonusRate`, `minPayoutThreshold`, `maxPayoutCap`);
every field may be absent. -/
structure PartialCampaignConfig where
  cpmRate : Option ℚ
  flatFee : Option ℚ
  bonusRate : Option ℚ
  minPayoutThreshold : Option ℚ
  maxPayoutCap : Option ℚ
deriving DecidableEq, Repr

/-- A `Partial<CampaignConfig>` with every field absent. -/
def emptyCampaignConfig : PartialCampaignConfig :=
  { cpmRate := none, flatFee := none, bonusRate := none,
    minPayoutThreshold := none, maxPayoutCap := none }

/-- Source `src/services/submission-service.ts` lines 181-187: the config
object literal built inside `calculateSubmissionPayout`, using JS `||`
fallbacks (`campaignConfig?.cpmRate || this.config.clipper.defaultCpmRate`
and so on); `bonusRate` is passed through without a fallback. -/
def resolvePayoutConfig (campaignConfig : Option PartialCampaignConfig)
    (cfg : ClipperConfig) : RateConfig :=
  { cpmRate := jsOr (campaignConfig.bind (fun c => c.cpmRate)) cfg.defaultCpmRate
    flatFee := jsOr (campaignConfig.bind (fun c => c.flatFee)) 0
    bonusRate := campaignConfig.bind (fun c => c.bonusRate)
    minPayoutThreshold :=
      jsOr (campaignConfig.bind (fun c => c.minPayoutThreshold)) cfg.minPayoutThreshold
    maxPayoutCap := jsOr (campaignConfig.bind (fun c => c.maxPayoutCap)) cfg.maxPayoutCap }

/-- Source `src/services/submission-service.ts` lines 177-190:
`calculateSubmissionPayout` (the service's `this.config.clipper` is passed
explicitly). -/
def calculateSubmissionPayout (viewCount : ℚ)
    (campaignConfig : Option PartialCampaignConfig) (cfg : ClipperConfig) : PayoutCalculation :=
  calculatePayout viewCount (resolvePayoutConfig campaignConfig cfg)

/-- Status domain of a remote entry.  The TS `WhopEntry` type in
`submission-service.ts` lists `pending | approved | denied | flagged`;
`paid` is the additional terminal state of the spec's submission state
machine (entered by an external payout-confirmation event). -/
inductive EntryStatus where
  | pending
  | approved
  | denied
  | flagged
  | paid
deriving DecidableEq, Repr

/-- Remote entry record, the fields the submission service reads or the
repository writes (`metadata.payout_amount` is flattened to a field;
`updated_at` is what `toSubmission` reports as `reviewedAt`). -/
structure WhopEntry where
  id : String
  experience_id : String
  view_count : Option ℚ
  status : EntryStatus
  status_reason : Option String
  payout_amount : Option ℚ
  created_at : ℚ
  updated_at : ℚ
deriving DecidableEq, Repr

/-- Modelled from the spec: the external Submission Repository (the remote
Whop API, not part of this repository's sources) is a collection of entries;
`failing` lists the entry ids whose write commands currently fail for reasons
opaque to the core (the spec's `RepositoryError` condition). -/
structure RepoState where
  entries : List WhopEntry
  failing : List String
deriving DecidableEq, Repr

/-- Modelled from the spec: the error taxonomy of section 7 — the source
throws `WhopApiError` values whose kinds the spec distinguishes as
`NotFoundError`, `StateConflict`, `RepositoryError` and `ValidationError`. -/
inductive ServiceError where
  | notFound (entryId : String)
  | stateConflict (entryId : String) (current : EntryStatus)
  | repositoryError (entryId : String)
  | validationError (message : String)
deriving DecidableEq, Repr

/-- Look an entry up by id (first match). -/
def findEntry (s : RepoState) (entryId : String) : Option WhopEntry :=
  s.entries.find? (fun e => decide (e.id = entryId))

/-- Modelled from the spec: the repository's `get(entryId)`; a missing entry
surfaces as not-found. -/
def repoGet (s : RepoState) (entryId : String) : Except ServiceError WhopEntry :=
  match findEntry s entryId with
  | none => Except.error (ServiceError.notFound entryId)
  | some e => Except.ok e

/-- Modelled from the spec: the repository's `approve(entryId, payoutAmount,
metadata)` command.  Approve is legal from `pending` or `flagged`; an illegal
transition fails with `StateConflict` carrying the current status and leaves
the collection unchanged; an id in `failing` fails with `RepositoryError`. -/
def repoApprove (s : RepoState) (entryId : String) (payoutAmount : ℚ) (now : ℚ) :
    Except ServiceError (WhopEntry × RepoState) :=
  if entryId ∈ s.failing then Except.error (ServiceError.repositoryError entryId)
  else
    match findEntry s entryId with
    | none => Except.error (ServiceError.notFound entryId)
    | some e =>
      if e.status = EntryStatus.pending ∨ e.status = EntryStatus.flagged then
        Except.ok
          ({ e with
              status := EntryStatus.approved
              payout_amount := some payoutAmount
              updated_at := now },
           { s with
              entries := s.entries.map (fun x =>
                if x.id = entryId then
                  { x with
                    status := EntryStatus.approved
                    payout_amount := some payoutAmount
                    updated_at := now }
                else x) })
      else Except.error (ServiceError.stateConflict entryId e.status)

/-- Modelled from the spec: the repository's `deny(entryId, reason)` command.
Reject is legal from `pending` or `flagged`; otherwise `StateConflict`; an id
in `failing` fails with `RepositoryError`.  The `notifyUser` flag is passed
through without affecting the stored record. -/
def repoDeny (s : RepoState) (entryId : String) (reason : String) (notifyUser : Bool)
    (now : ℚ) : Except ServiceError (WhopEntry × RepoState) :=
  if entryId ∈ s.failing then Except.error (ServiceError.repositoryError entryId)
  else
    match findEntry s entryId with
    | none => Except.error (ServiceError.notFound entryId)
    | some e =>
      if e.status = EntryStatus.pending ∨ e.status = EntryStatus.flagged then
        Except.ok
          ({ e with
              status := EntryStatus.denied
              status_reason := some reason
              updated_at := now },
           { s with
              entries := s.entries.map (fun x =>
                if x.id = entryId then
                  { x with
                    status := EntryStatus.denied
                    status_reason := some reason
                    updated_at := now }
                else x) })
      else Except.error (ServiceError.stateConflict entryId e.status)

/-- Source `src/services/submission-service.ts` lines 41-48: `ApprovalOptions`. -/
structure ApprovalOptions where
  campaignConfig : Option PartialCampaignConfig
  viewCount : Option ℚ
  note : Option String
deriving DecidableEq, Repr

/-- Source `src/services/submission-service.ts` lines 53-57: `RejectionOptions`. -/
structure RejectionOptions where
  reason : String
  notifyUser : Option Bool
deriving DecidableEq, Repr

/-- Source `src/services/submission-service.ts` lines 195-233:
`approveSubmission`.  Fetches the entry, resolves the view count with JS `??`
(`options.viewCount ?? currentEntry.view_count ?? 0`), computes the payout,
then issues the remote approve; any error is logged and rethrown, so it
propagates and the repository state is returned unchanged. -/
def approveSubmission (s : RepoState) (entryId : String) (options : ApprovalOptions)
    (now : ℚ) (cfg : ClipperConfig) :
    Except ServiceError (WhopEntry × PayoutCalculation) × RepoState :=
  match repoGet s entryId with
  | Except.error e => (Except.error e, s)
  | Except.ok currentEntry =>
    let viewCount := options.viewCount.getD (currentEntry.view_count.getD 0)
    let payout := calculateSubmissionPayout viewCount options.campaignConfig cfg
    let payout := { payout with submissionId := entryId }
    match repoApprove s entryId payout.finalPayout now with
    | Except.error e => (Except.error e, s)
    | Except.ok (entry, s2) => (Except.ok (entry, payout), s2)

/-- Source `src/services/submission-service.ts` lines 238-256:
`rejectSubmission`.  No validation of `reason`; posts the deny command with
`notify_user: options.notifyUser ?? true` and rethrows any error. -/
def rejectSubmission (s : RepoState) (entryId : String) (options : RejectionOptions)
    (now : ℚ) : Except ServiceError WhopEntry × RepoState :=
  match repoDeny s entryId options.reason (options.notifyUser.getD true) now with
  | Except.error e => (Except.error e, s)
  | Except.ok (entry, s2) => (Except.ok entry, s2)

/-- Source `src/services/submission-service.ts` lines 139-155:
`getPendingSubmissions` pages through `listSubmissions` with
`status: 'pending'` and the optional experience filter; in the model the
paging collapses to one filtered list. -/
def getPendingSubmissions (s : RepoState) (experienceId : Option String) : List WhopEntry :=
  s.entries.filter (fun e =>
    decide (e.status = EntryStatus.pending) &&
      match experienceId with
      | none => true
      | some x => decide (e.experience_id = x))

/-- Source `src/services/submission-service.ts` lines 62-71: `BulkReviewOptions`. -/
structure BulkReviewOptions where
  autoApproveAfterHours : Option ℚ
  minViewCount : Option ℚ
  limit : Option ℕ
  campaignConfig : Option PartialCampaignConfig
deriving DecidableEq, Repr

/-- Source `src/services/submission-service.ts` lines 264-277: the result
object of `bulkReview` — only these four aggregate fields exist. -/
structure BulkResults where
  approved : ℕ
  rejected : ℕ
  skipped : ℕ
  totalPayout : ℚ
deriving DecidableEq, Repr

/-- Source line 280: `options.limit ? pending.slice(0, options.limit) :
pending` — a `limit` of `0` is falsy, so it means no limit. -/
def applyLimit (limit : Option ℕ) (pending : List WhopEntry) : List WhopEntry :=
  match limit with
  | none => pending
  | some l => if l = 0 then pending else pending.take l

/-- The batch one sweep iterates over (source lines 279-280). -/
def toProcess (s : RepoState) (experienceId : String) (options : BulkReviewOptions) :
    List WhopEntry :=
  applyLimit options.limit (getPendingSubmissions s (some experienceId))

/-- Source line 284: `cutoffTime = new Date(Date.now() - autoApproveHours *
60 * 60 * 1000)` with `autoApproveHours = options.autoApproveAfterHours ||
config.clipper.autoApproveHours`; times are epoch milliseconds. -/
def sweepCutoff (options : BulkReviewOptions) (cfg : ClipperConfig) (now : ℚ) : ℚ :=
  now - jsOr options.autoApproveAfterHours cfg.autoApproveHours * 60 * 60 * 1000

/-- Source line 283: `minViewCount = options.minViewCount || 0`. -/
def sweepMinViews (options : BulkReviewOptions) : ℚ :=
  jsOr options.minViewCount 0

/-- Source line 291: the loop's auto-approve test `createdAt < cutoffTime &&
viewCount >= minViewCount` with `viewCount = submission.view_count || 0`.
The age comparison is strict: an entry created exactly at the cutoff instant
is not approved. -/
def sweepEligible (cutoffTime minViewCount : ℚ) (e : WhopEntry) : Bool :=
  decide (e.created_at < cutoffTime ∧ minViewCount ≤ jsOr e.view_count 0)

/-- Payout a sweep approval computes for an entry: `approveSubmission` is
called without a view-count override, so the entry's own
`view_count ?? 0` feeds `calculateSubmissionPayout`. -/
def sweepPayout (options : BulkReviewOptions) (cfg : ClipperConfig) (e : WhopEntry) : ℚ :=
  (calculateSubmissionPayout (e.view_count.getD 0) options.campaignConfig cfg).finalPayout

/-- Source lines 286-305: the `for (const submission of toProcess)` loop.
An eligible entry is approved (counting the payout); an approval error is
caught, logged, and counted as `skipped`; an ineligible entry is `skipped`;
nothing is ever rejected. -/
def bulkReviewGo (options : BulkReviewOptions) (cfg : ClipperConfig)
    (cutoffTime minViewCount now : ℚ) :
    List WhopEntry → RepoState → BulkResults → BulkResults × RepoState
  | [], s, results => (results, s)
  | submission :: rest, s, results =>
    if sweepEligible cutoffTime minViewCount submission then
      match approveSubmission s submission.id
          { campaignConfig := options.campaignConfig, viewCount := none, note := none }
          now cfg with
      | (Except.ok (_, payout), s2) =>
        bulkReviewGo options cfg cutoffTime minViewCount now rest s2
          { results with
              approved := results.approved + 1
              totalPayout := results.totalPayout + payout.finalPayout }
      | (Except.error _, s2) =>
        bulkReviewGo options cfg cutoffTime minViewCount now rest s2
          { results with skipped := results.skipped + 1 }
    else
      bulkReviewGo options cfg cutoffTime minViewCount now rest s
        { results with skipped := results.skipped + 1 }

/-- Source `src/services/submission-service.ts` lines 261-309: `bulkReview`. -/
def bulkReview (s : RepoState) (experienceId : String) (options : BulkReviewOptions)
    (now : ℚ) (cfg : ClipperConfig) : BulkResults × RepoState :=
  bulkReviewGo options cfg (sweepCutoff options cfg now) (sweepMinViews options) now
    (toProcess s experienceId options) s
    { approved := 0, rejected := 0, skipped := 0, totalPayout := 0 }

/-- Source `src/services/submission-service.ts` lines 76-85: the
`SubmissionStats` result shape — there is no `approvalRate` field. -/
structure SubmissionStats where
  total : ℕ
  pending : ℕ
  approved : ℕ
  rejected : ℕ
  flagged : ℕ
  totalViews : ℚ
  totalPayout : ℚ
  averageViews : ℚ
deriving DecidableEq, Repr

/-- Source lines 329-340 of `getStats`: page through `listSubmissions` with
only the optional experience filter; in the model, the filtered list. -/
def statsList (s : RepoState) (experienceId : Option String) : List WhopEntry :=
  s.entries.filter (fun e =>
    match experienceId with
    | none => true
    | some x => decide (e.experience_id = x))

/-- Source lines 344-361 of `getStats`: the per-entry `switch` — `pending`,
`approved` (also accumulating `view_count || 0` into `totalViews`), `denied`
(counted as `rejected`) and `flagged`; any other status falls through
without being counted, and `totalPayout` is never updated. -/
def statsStep (stats : SubmissionStats) (submission : WhopEntry) : SubmissionStats :=
  match submission.status with
  | EntryStatus.pending => { stats with pending := stats.pending + 1 }
  | EntryStatus.approved =>
    { stats with
        approved := stats.approved + 1
        totalViews := stats.totalViews + jsOr submission.view_count 0 }
  | EntryStatus.denied => { stats with rejected := stats.rejected + 1 }
  | EntryStatus.flagged => { stats with flagged := stats.flagged + 1 }
  | EntryStatus.paid => stats

/-- Source `src/services/submission-service.ts` lines 314-366: `getStats`.
`total` is set to the fetched length before the loop, and afterwards
`averageViews = approved > 0 ? Math.round(totalViews / approved) : 0`. -/
def getStats (s : RepoState) (experienceId : Option String) : SubmissionStats :=
  let allSubmissions := statsList s experienceId
  let stats : SubmissionStats :=
    { total := allSubmissions.length, pending := 0, approved := 0, rejected := 0,
      flagged := 0, totalViews := 0, totalPayout := 0, averageViews := 0 }
  let stats := allSubmissions.foldl statsStep stats
  { stats with averageViews :=
      if 0 < stats.approved then ((jsRound (stats.totalViews / (stats.approved : ℚ))) : ℚ)
      else 0 }

/-- Concrete repository state for the C3 witness: a single already-denied
entry. -/
def entryC3 : WhopEntry :=
  { id := "e1"
    experience_id := "exp"
    view_count := some 100
    status := EntryStatus.denied
    status_reason := some "spam"
    payout_amount := none
    created_at := 0
    updated_at := 10 }

/-- Repository holding only `entryC3`. -/
def stateC3 : RepoState :=
  { entries := [entryC3]
    failing := [] }

/-- Concrete repository state for the C7 counterexample: a single pending
entry. -/
def entryC7 : WhopEntry :=
  { id := "e1"
    experience_id := "exp"
    view_count := some 100
    status := EntryStatus.pending
    status_reason := none
    payout_amount := none
    created_at := 0
    updated_at := 0 }

/-- Repository holding only `entryC7`. -/
def stateC7 : RepoState :=
  { entries := [entryC7]
    failing := [] }

/-- Concrete pending entry whose age at `now = 172800000 ms` is exactly the
default threshold of 48 hours (used for C5). -/
def entryC5 : WhopEntry :=
  { id := "e1"
    experience_id := "exp"
    view_count := some 1000000
    status := EntryStatus.pending
    status_reason := none
    payout_amount := none
    created_at := 0
    updated_at := 0 }

/-- Repository holding only `entryC5`. -/
def stateC5 : RepoState :=
  { entries := [entryC5]
    failing := [] }

/-- Variant of `stateC5` with the entry one millisecond older, so its age
strictly exceeds the 48-hour threshold. -/
def stateC5older : RepoState :=
  { entries := [{ entryC5 with created_at := -1 }]
    failing := [] }

/-- Old pending entry with 1000 views (C4 scenarios). -/
def entryC4a : WhopEntry :=
  { id := "e1"
    experience_id := "exp"
    view_count := some 1000
    status := EntryStatus.pending
    status_reason := none
    payout_amount := none
    created_at := 0
    updated_at := 0 }

/-- Old pending entry with 1000 views and a distinct id (C4 scenarios). -/
def entryC4b : WhopEntry :=
  { entryC4a with id := "e2" }

/-- Old pending entry with 2000 views and a distinct id (C4 scenarios). -/
def entryC4c : WhopEntry :=
  { entryC4a with
      id := "e3"
      view_count := some 2000 }

/-- Concrete repository state for the C4 counterexample: three old pending
entries, the second of which fails on the remote approve call. -/
def stateC4fail : RepoState :=
  { entries := [entryC4a, entryC4b, entryC4c]
    failing := ["e2"] }

/-- Variant of `stateC4fail` where nothing fails but the second entry is
merely too young to be eligible — indistinguishable from `stateC4fail` in
the sweep's result. -/
def stateC4young : RepoState :=
  { entries := [entryC4a, { entryC4b with created_at := 720000000 }, entryC4c]
    failing := [] }

/-- Sweep options used by the concrete sweep scenarios: everything defaulted. -/
def optionsAllDefaults : BulkReviewOptions :=
  { autoApproveAfterHours := none
    minViewCount := none
    limit := none
    campaignConfig := none }

/-- Approved entry with 1 view (C6 scenario). -/
def entryC6a : WhopEntry :=
  { id := "a"
    experience_id := "exp"
    view_count := some 1
    status := EntryStatus.approved
    status_reason := none
    payout_amount := none
    created_at := 0
    updated_at := 0 }

/-- Approved entry with 2 views (C6 scenario). -/
def entryC6b : WhopEntry :=
  { entryC6a with
      id := "b"
      view_count := some 2 }

/-- Pending entry with 7 views (C6 scenario). -/
def entryC6c : WhopEntry :=
  { entryC6a with
      id := "c"
      view_count := some 7
      status := EntryStatus.pending }

/-- Denied entry with 9 views (C6 scenario). -/
def entryC6d : WhopEntry :=
  { entryC6a with
      id := "d"
      view_count := some 9
      status := EntryStatus.denied
      status_reason := some "off-topic" }

/-- Concrete repository state for the C6 counterexample and witness: two
approved entries with 1 and 2 views, one pending and one denied entry. -/
def stateC6 : RepoState :=
  { entries := [entryC6a, entryC6b, entryC6c, entryC6d]
    failing := [] }

/-- The all-zero stats record (what `getStats` yields on an empty
collection). -/
def emptyStats : SubmissionStats :=
  { total := 0
    pending := 0
    approved := 0
    rejected := 0
    flagged := 0
    totalViews := 0
    totalPayout := 0
    averageViews := 0 }

theorem jsOrZero_eq (x : ℚ) : jsOrZero x = x := by
  unfold jsOrZero; split <;> simp_all

theorem round2_mono {a b : ℚ} (h : a ≤ b) : round2 a ≤ round2 b := by
  unfold round2
  have : (⌊a * 100 + 1 / 2⌋ : ℤ) ≤ ⌊b * 100 + 1 / 2⌋ := by
    apply Int.floor_mono; nlinarith
  have hc : ((⌊a * 100 + 1 / 2⌋ : ℤ) : ℚ) ≤ ((⌊b * 100 + 1 / 2⌋ : ℤ) : ℚ) := by
    exact_mod_cast this
  linarith

theorem round2_cents (a : ℤ) : round2 ((a : ℚ) / 100) = (a : ℚ) / 100 := by
  unfold round2
  have h1 : (a : ℚ) / 100 * 100 + 1 / 2 = (a : ℚ) + 1 / 2 := by ring
  rw [h1]
  have h2 : ⌊(a : ℚ) + 1 / 2⌋ = a + ⌊(1 : ℚ) / 2⌋ := Int.floor_int_add a (1 / 2)
  have h3 : ⌊(1 : ℚ) / 2⌋ = 0 := by norm_num
  rw [h2, h3]
  norm_num

theorem round2_zero : round2 0 = 0 := by
  have := round2_cents 0
  simpa using this

/-- C1 (corrected, counterexample): with `minPayoutThreshold = maxPayoutCap`
taken as `1.004` (a value the config schema accepts) and `viewCount = 0`,
`flatFee = 1.004` clears the threshold, yet the rounded `finalPayout` field is
`1.00 < 1.004`, so the claimed invariant
`finalPayout ∈ {0} ∪ [minPayoutThreshold, maxPayoutCap]` fails as stated. -/
theorem calculatePayout_payout_window_cex :
    ¬((calculatePayout 0 ⟨5, 251/250, none, 251/250, 500⟩).finalPayout = 0 ∨
      ((251 : ℚ)/250 ≤ (calculatePayout 0 ⟨5, 251/250, none, 251/250, 500⟩).finalPayout ∧
       (calculatePayout 0 ⟨5, 251/250, none, 251/250, 500⟩).finalPayout ≤ 500)) := by
  norm_num [calculatePayout, round2, jsOrZero]

/-- C1 (amended): for every non-negative view count and every config with
`maxPayoutCap > 0`, `minPayoutThreshold ≥ 0`, and threshold and cap that are
whole numbers of cents (integer multiples of `0.01`), the `finalPayout` field
of `calculatePayout` is either exactly `0` or lies in
`[minPayoutThreshold, maxPayoutCap]`; in particular
`finalPayout ≤ maxPayoutCap`. -/
theorem calculatePayout_payout_window (v : ℚ) (c : RateConfig)
    (hv : 0 ≤ v) (hcap : 0 < c.maxPayoutCap) (hthr : 0 ≤ c.minPayoutThreshold)
    (a b : ℤ) (ha : c.minPayoutThreshold = (a : ℚ) / 100) (hb : c.maxPayoutCap = (b : ℚ) / 100) :
    ((calculatePayout v c).finalPayout = 0 ∨
      (c.minPayoutThreshold ≤ (calculatePayout v c).finalPayout ∧
        (calculatePayout v c).finalPayout ≤ c.maxPayoutCap)) ∧
    (calculatePayout v c).finalPayout ≤ c.maxPayoutCap := by
  simp only [calculatePayout]
  set gross := v / 1000 * c.cpmRate + jsOrZero c.flatFee +
    (match c.bonusRate with
     | none => 0
     | some b => if b = 0 then 0 else v / 1000 * b) with hgross
  by_cases hmin : c.minPayoutThreshold ≤ min gross c.maxPayoutCap
  · have hd : decide (c.minPayoutThreshold ≤ min gross c.maxPayoutCap) = true := by
      simpa using hmin
    simp only [hd, if_true]
    have hle1 : c.minPayoutThreshold ≤ round2 (min gross c.maxPayoutCap) := by
      calc c.minPayoutThreshold = round2 c.minPayoutThreshold := by rw [ha, round2_cents]
      _ ≤ round2 (min gross c.maxPayoutCap) := round2_mono hmin
    have hle2 : round2 (min gross c.maxPayoutCap) ≤ c.maxPayoutCap := by
      calc round2 (min gross c.maxPayoutCap) ≤ round2 c.maxPayoutCap :=
            round2_mono (min_le_right _ _)
      _ = c.maxPayoutCap := by rw [hb, round2_cents]
    exact ⟨Or.inr ⟨hle1, hle2⟩, hle2⟩
  · have hd : decide (c.minPayoutThreshold ≤ min gross c.maxPayoutCap) = false := by
      simpa using hmin
    simp only [hd, Bool.false_eq_true, if_false, round2_zero]
    exact ⟨Or.inl trivial, le_of_lt hcap⟩

/-- C1 witness: the amended invariant holds at `viewCount = 1000` against the
default config (`cpmRate = 5`, threshold `1.00`, cap `500.00`). -/
theorem calculatePayout_payout_window_w :
    ((calculatePayout 1000 ⟨5, 0, none, 1, 500⟩).finalPayout = 0 ∨
      ((1 : ℚ) ≤ (calculatePayout 1000 ⟨5, 0, none, 1, 500⟩).finalPayout ∧
        (calculatePayout 1000 ⟨5, 0, none, 1, 500⟩).finalPayout ≤ 500)) ∧
    (calculatePayout 1000 ⟨5, 0, none, 1, 500⟩).finalPayout ≤ 500 :=
  calculatePayout_payout_window 1000 ⟨5, 0, none, 1, 500⟩ (by norm_num) (by norm_num)
    (by norm_num) 100 50000 (by norm_num) (by norm_num)

/-- C2 (corrected, counterexample): at `viewCount = 1` with `cpmRate = 4`,
`bonusRate = 4`, `flatFee = 0`, the unrounded components are `0.004 + 0.004`,
so the source computes `grossTotal = round2(0.008) = 0.01`, while the claim's
formula over the already-rounded components gives `round2(0 + 0 + 0) = 0`. -/
theorem calculatePayout_field_formulas_cex :
    (calculatePayout 1 ⟨4, 0, some 4, 0, 500⟩).grossTotal ≠
      (calculatePayoutClaimC2 1 ⟨4, 0, some 4, 0, 500⟩).grossTotal := by
  norm_num [calculatePayout, calculatePayoutClaimC2, round2, jsOrZero]

/-- C2 (amended): `calculatePayout` computes every derived quantity from
unrounded intermediates — `grossTotal = round2(cpm + flatFee + bonus)` with
`cpm` and `bonus` unrounded, `cappedTotal = round2(min(grossUnrounded, cap))`,
`meetsMinimum = (minUnrounded ≥ threshold)` and
`wasCapped = (grossUnrounded > cap)` judged before rounding — and each
monetary output field is `round2` of its unrounded value. -/
theorem calculatePayout_field_formulas (v : ℚ) (c : RateConfig) :
    calculatePayout v c = calculatePayoutClaimC2Amended v c := by
  unfold calculatePayout calculatePayoutClaimC2Amended
  cases c with
  | mk cpm fee bonus thr cap =>
    cases bonus <;> simp [round2_zero]

/-- C8: for every config with `cpmRate > 0`, `flatFee ≥ 0`,
`minPayoutThreshold ≥ 0`, the round-trip holds:
`meetsMinimumThreshold (minimumViewsForPayout c) c = true`; when
`minimumViewsForPayout c - 1` is non-negative,
`meetsMinimumThreshold (minimumViewsForPayout c - 1) c = false`; and
`minimumViewsForPayout` is `0` when `flatFee ≥ minPayoutThreshold` and
`ceil((minPayoutThreshold - flatFee) / cpmRate * 1000)` otherwise. -/
theorem minimumViewsForPayout_round_trip (c : RateConfig)
    (hcpm : 0 < c.cpmRate) (hfee : 0 ≤ c.flatFee) (hthr : 0 ≤ c.minPayoutThreshold) :
    meetsMinimumThreshold (minimumViewsForPayout c : ℚ) c = true ∧
    (1 ≤ minimumViewsForPayout c →
      meetsMinimumThreshold ((minimumViewsForPayout c : ℚ) - 1) c = false) ∧
    minimumViewsForPayout c =
      (if c.minPayoutThreshold ≤ c.flatFee then 0
       else ⌈(c.minPayoutThreshold - c.flatFee) / c.cpmRate * 1000⌉) := by
  simp only [minimumViewsForPayout, meetsMinimumThreshold, jsOrZero_eq]
  set rem := c.minPayoutThreshold - c.flatFee with hrem
  by_cases h : rem ≤ 0
  · have hcond : c.minPayoutThreshold ≤ c.flatFee := by linarith
    simp only [h, if_true, hcond]
    refine ⟨?_, ?_, trivial⟩
    · simp only [Int.cast_zero, decide_eq_true_eq]
      have hz : (0:ℚ) / 1000 * c.cpmRate = 0 := by ring
      rw [hz]
      linarith
    · intro habs
      omega
  · have hcond : ¬ c.minPayoutThreshold ≤ c.flatFee := by
      intro hle
      apply h
      linarith
    have hrpos : 0 < rem := by linarith
    simp only [h, if_false, hcond]
    set m : ℤ := ⌈rem / c.cpmRate * 1000⌉ with hm
    have hle : rem / c.cpmRate * 1000 ≤ (m : ℚ) := Int.le_ceil _
    have hlt : (m : ℚ) < rem / c.cpmRate * 1000 + 1 := Int.ceil_lt_add_one _
    refine ⟨?_, ?_, trivial⟩
    · simp only [decide_eq_true_eq]
      have key : rem ≤ (m : ℚ) / 1000 * c.cpmRate := by
        have h2 : rem / c.cpmRate * 1000 * c.cpmRate ≤ (m : ℚ) * c.cpmRate :=
          mul_le_mul_of_nonneg_right hle (le_of_lt hcpm)
        have h3 : rem / c.cpmRate * c.cpmRate = rem := div_mul_cancel₀ rem (ne_of_gt hcpm)
        nlinarith
      linarith
    · intro h1m
      simp only [decide_eq_false_iff_not, not_le]
      have key : ((m : ℚ) - 1) / 1000 * c.cpmRate < rem := by
        have h4 : ((m : ℚ) - 1) < rem / c.cpmRate * 1000 := by linarith
        have h5 : ((m : ℚ) - 1) * c.cpmRate < rem / c.cpmRate * 1000 * c.cpmRate := by
          nlinarith
        have h6 : rem / c.cpmRate * c.cpmRate = rem := div_mul_cancel₀ rem (ne_of_gt hcpm)
        nlinarith
      linarith

/-- C8 witness: default config `cpmRate = 5`, `flatFee = 0`, threshold `1.00`
needs exactly 200 views; 199 views fall short. -/
theorem minimumViewsForPayout_round_trip_w :
    meetsMinimumThreshold (minimumViewsForPayout ⟨5, 0, none, 1, 500⟩ : ℚ)
        ⟨5, 0, none, 1, 500⟩ = true ∧
    (1 ≤ minimumViewsForPayout ⟨5, 0, none, 1, 500⟩ →
      meetsMinimumThreshold ((minimumViewsForPayout ⟨5, 0, none, 1, 500⟩ : ℚ) - 1)
        ⟨5, 0, none, 1, 500⟩ = false) ∧
    minimumViewsForPayout ⟨5, 0, none, 1, 500⟩ =
      (if (1 : ℚ) ≤ 0 then 0 else ⌈((1 : ℚ) - 0) / 5 * 1000⌉) :=
  minimumViewsForPayout_round_trip ⟨5, 0, none, 1, 500⟩ (by norm_num) (by norm_num) (by norm_num)

/-- C9: for a fixed valid config (positive `cpmRate`, non-negative `flatFee`
and `bonusRate`), the `grossTotal` field of `calculatePayout` is monotone
non-decreasing in the view count. -/
theorem calculatePayout_grossTotal_mono (c : RateConfig)
    (hcpm : 0 < c.cpmRate) (hfee : 0 ≤ c.flatFee)
    (hbonus : ∀ b, c.bonusRate = some b → 0 ≤ b)
    (v1 v2 : ℚ) (h0 : 0 ≤ v1) (h12 : v1 ≤ v2) :
    (calculatePayout v1 c).grossTotal ≤ (calculatePayout v2 c).grossTotal := by
  simp only [calculatePayout]
  apply round2_mono
  have h1 : v1 / 1000 * c.cpmRate ≤ v2 / 1000 * c.cpmRate := by nlinarith
  have h2 : (match c.bonusRate with
      | none => (0:ℚ)
      | some b => if b = 0 then 0 else v1 / 1000 * b) ≤
      (match c.bonusRate with
      | none => (0:ℚ)
      | some b => if b = 0 then 0 else v2 / 1000 * b) := by
    cases hbr : c.bonusRate with
    | none => simp
    | some b =>
      have hble : 0 ≤ b := hbonus b hbr
      by_cases hbz : b = 0
      · simp [hbz]
      · simp only [hbz, if_false]
        nlinarith
  linarith

/-- C9 witness: with the default config, 1000 views gross no more than
2000 views. -/
theorem calculatePayout_grossTotal_mono_w :
    (calculatePayout 1000 ⟨5, 0, none, 1, 500⟩).grossTotal ≤
      (calculatePayout 2000 ⟨5, 0, none, 1, 500⟩).grossTotal :=
  calculatePayout_grossTotal_mono ⟨5, 0, none, 1, 500⟩ (by norm_num) (by norm_num)
    (by intro b hb; cases hb) 1000 2000 (by norm_num) (by norm_num)

/-- C10: the per-campaign overrides are merged with the global defaults by
JS `||`, so a supplied field equal to `0` is discarded in favour of the
fallback (`cpmRate`, `minPayoutThreshold`, `maxPayoutCap` fall back to the
global config; `flatFee` falls back to the literal `0`, the schema default);
in particular `minPayoutThreshold: 0` under the default global config
resolves to the default threshold `1.00`, not `0`. -/
theorem calculateSubmissionPayout_zero_overrides (v : ℚ) (pc : PartialCampaignConfig)
    (cfg : ClipperConfig) :
    calculateSubmissionPayout v (some { pc with cpmRate := some 0 }) cfg =
      calculateSubmissionPayout v (some { pc with cpmRate := none }) cfg ∧
    calculateSubmissionPayout v (some { pc with flatFee := some 0 }) cfg =
      calculateSubmissionPayout v (some { pc with flatFee := none }) cfg ∧
    calculateSubmissionPayout v (some { pc with minPayoutThreshold := some 0 }) cfg =
      calculateSubmissionPayout v (some { pc with minPayoutThreshold := none }) cfg ∧
    calculateSubmissionPayout v (some { pc with maxPayoutCap := some 0 }) cfg =
      calculateSubmissionPayout v (some { pc with maxPayoutCap := none }) cfg ∧
    (resolvePayoutConfig (some { emptyCampaignConfig with minPayoutThreshold := some 0 })
        defaultClipperConfig).minPayoutThreshold = 1 := by
  refine ⟨?_, ?_, ?_, ?_, ?_⟩ <;>
    simp [calculateSubmissionPayout, resolvePayoutConfig, jsOr, emptyCampaignConfig,
      defaultClipperConfig]

/-- C7 (amended, part 1): `rejectSubmission` performs no validation of the
rejection reason: for every repository state, entry id, reason (the empty
string included) and notify flag, the result is never a `ValidationError` —
the deny command is simply forwarded to the repository. -/
theorem rejectSubmission_never_validates (s : RepoState) (entryId : String)
    (options : RejectionOptions) (now : ℚ) (msg : String) :
    (rejectSubmission s entryId options now).1 ≠
      Except.error (ServiceError.validationError msg) := by
  have hshape : ∀ err, repoDeny s entryId options.reason (options.notifyUser.getD true) now =
      Except.error err → ∀ m, err ≠ ServiceError.validationError m := by
    intro err h m
    unfold repoDeny at h
    split at h
    · injection h with h2; subst h2; simp
    · split at h
      · injection h with h2; subst h2; simp
      · split at h
        · exact absurd h (by simp)
        · injection h with h2; subst h2; simp
  unfold rejectSubmission
  cases h : repoDeny s entryId options.reason (options.notifyUser.getD true) now with
  | error err => simpa using hshape err h msg
  | ok p => simp

/-- C3: approving an entry whose current status is `denied` (rejected) or
`paid` fails with a `StateConflict` error carrying that status, and the
repository state — hence the entry's `updated_at` (its `reviewedAt`) and
recorded payout — is returned unchanged; the call never silently succeeds. -/
theorem approveSubmission_illegal_transition (s : RepoState) (entryId : String)
    (options : ApprovalOptions) (now : ℚ) (cfg : ClipperConfig) (e : WhopEntry)
    (hfind : findEntry s entryId = some e)
    (hfail : entryId ∉ s.failing)
    (hst : e.status = EntryStatus.denied ∨ e.status = EntryStatus.paid) :
    approveSubmission s entryId options now cfg =
      (Except.error (ServiceError.stateConflict entryId e.status), s) := by
  have hnl : ¬(e.status = EntryStatus.pending ∨ e.status = EntryStatus.flagged) := by
    rcases hst with h | h <;> rw [h] <;> simp
  unfold approveSubmission repoGet repoApprove
  rw [hfind]
  simp [hfail, hnl]

/-- C3 witness: approving the already-denied entry of `stateC3` yields the
state conflict and leaves the state untouched. -/
theorem approveSubmission_illegal_transition_w :
    approveSubmission stateC3 "e1" ⟨none, none, none⟩ 99 defaultClipperConfig =
      (Except.error (ServiceError.stateConflict "e1" EntryStatus.denied), stateC3) := by
  have h := approveSubmission_illegal_transition stateC3 "e1" ⟨none, none, none⟩ 99
    defaultClipperConfig entryC3
    (by simp [stateC3, findEntry, entryC3])
    (by simp [stateC3])
    (Or.inl rfl)
  simpa [entryC3] using h

/-- C7 (corrected, counterexample): `rejectSubmission` with an empty reason
does not fail with a `ValidationError` — the rejection is sent to the
repository as-is and succeeds, recording the empty string as the status
reason. -/
theorem rejectSubmission_empty_reason_cex :
    rejectSubmission stateC7 "e1" { reason := "", notifyUser := none } 5 =
      (Except.ok { entryC7 with
          status := EntryStatus.denied
          status_reason := some ""
          updated_at := 5 },
        { stateC7 with entries := [{ entryC7 with
            status := EntryStatus.denied
            status_reason := some ""
            updated_at := 5 }] }) := by
  simp [rejectSubmission, repoDeny, findEntry, stateC7, entryC7]

/-- C6 (corrected, counterexample): on two approved entries with 1 and 2
views, `getStats` reports `averageViews = Math.round(3 / 2) = 2`, which is
not the claimed exact quotient `totalViews / approvedCount = 3 / 2` (and the
result record has no `approvalRate` field at all). -/
theorem getStats_averageViews_cex :
    (getStats stateC6 none).averageViews ≠
      (getStats stateC6 none).totalViews / ((getStats stateC6 none).approved : ℚ) := by
  norm_num [getStats, statsList, statsStep, stateC6, entryC6a, entryC6b, entryC6c,
    entryC6d, jsOr, jsRound]

/-- C5 (corrected, counterexample): at `now = 172800000 ms` the entry of
`stateC5` is exactly 48 hours old — equal to the default threshold — yet the
sweep skips it (the source compares `createdAt < cutoffTime` strictly);
one millisecond older and it is approved. -/
theorem bulkReview_boundary_age_cex :
    (bulkReview stateC5 "exp" optionsAllDefaults 172800000 defaultClipperConfig).1 =
      { approved := 0, rejected := 0, skipped := 1, totalPayout := 0 } ∧
    (bulkReview stateC5older "exp" optionsAllDefaults 172800000 defaultClipperConfig).1.approved
      = 1 := by
  constructor
  · norm_num [bulkReview, bulkReviewGo, toProcess, applyLimit, getPendingSubmissions,
      sweepCutoff, sweepMinViews, sweepEligible, stateC5, entryC5, optionsAllDefaults,
      defaultClipperConfig, jsOr]
  · norm_num [bulkReview, bulkReviewGo, toProcess, applyLimit, getPendingSubmissions,
      sweepCutoff, sweepMinViews, sweepEligible, stateC5older, entryC5, optionsAllDefaults,
      defaultClipperConfig, jsOr, approveSubmission, repoGet, repoApprove, findEntry,
      calculateSubmissionPayout, resolvePayoutConfig, calculatePayout, round2, jsOrZero]

/-- C4 (corrected, counterexample): in a 3-item batch where item 2's remote
approve call throws, the sweep still approves items 1 and 3 (so one failure
does not abort the batch), but the failure is merely counted into `skipped`:
the result is the bare aggregate record — with no `errors` list — and is
exactly equal to the result for a batch whose second item is simply
ineligible, so the failing entry's id is not reported anywhere. -/
theorem bulkReview_no_error_list_cex :
    (bulkReview stateC4fail "exp" optionsAllDefaults 720000000 defaultClipperConfig).1 =
      { approved := 2, rejected := 0, skipped := 1, totalPayout := 15 } ∧
    (bulkReview stateC4fail "exp" optionsAllDefaults 720000000 defaultClipperConfig).1 =
      (bulkReview stateC4young "exp" optionsAllDefaults 720000000 defaultClipperConfig).1 := by
  have h1 : (bulkReview stateC4fail "exp" optionsAllDefaults 720000000 defaultClipperConfig).1 =
      { approved := 2, rejected := 0, skipped := 1, totalPayout := 15 } := by
    norm_num [bulkReview, bulkReviewGo, toProcess, applyLimit, getPendingSubmissions,
      sweepCutoff, sweepMinViews, sweepEligible, stateC4fail, entryC4a, entryC4b, entryC4c,
      optionsAllDefaults, defaultClipperConfig, jsOr, approveSubmission, repoGet, repoApprove,
      findEntry, calculateSubmissionPayout, resolvePayoutConfig, calculatePayout, round2,
      jsOrZero,
      show ("e1" : String) ≠ "e2" from by decide,
      show ("e2" : String) ≠ "e1" from by decide,
      show ("e1" : String) ≠ "e3" from by decide,
      show ("e3" : String) ≠ "e1" from by decide,
      show ("e2" : String) ≠ "e3" from by decide,
      show ("e3" : String) ≠ "e2" from by decide]
  have h2 : (bulkReview stateC4young "exp" optionsAllDefaults 720000000 defaultClipperConfig).1 =
      { approved := 2, rejected := 0, skipped := 1, totalPayout := 15 } := by
    norm_num [bulkReview, bulkReviewGo, toProcess, applyLimit, getPendingSubmissions,
      sweepCutoff, sweepMinViews, sweepEligible, stateC4young, entryC4a, entryC4b, entryC4c,
      optionsAllDefaults, defaultClipperConfig, jsOr, approveSubmission, repoGet, repoApprove,
      findEntry, calculateSubmissionPayout, resolvePayoutConfig, calculatePayout, round2,
      jsOrZero,
      show ("e1" : String) ≠ "e2" from by decide,
      show ("e2" : String) ≠ "e1" from by decide,
      show ("e1" : String) ≠ "e3" from by decide,
      show ("e3" : String) ≠ "e1" from by decide,
      show ("e2" : String) ≠ "e3" from by decide,
      show ("e3" : String) ≠ "e2" from by decide]
  exact ⟨h1, h1.trans h2.symm⟩

theorem statsFold_total (l : List WhopEntry) :
    ∀ st : SubmissionStats, (l.foldl statsStep st).total = st.total := by
  induction l with
  | nil => intro st; rfl
  | cons e rest ih =>
    intro st
    rw [List.foldl_cons, ih]
    unfold statsStep
    cases e.status <;> rfl

theorem statsFold_pending (l : List WhopEntry) :
    ∀ st : SubmissionStats, (l.foldl statsStep st).pending =
      st.pending + (l.filter (fun e => decide (e.status = EntryStatus.pending))).length := by
  induction l with
  | nil => intro st; simp
  | cons e rest ih =>
    intro st
    rw [List.foldl_cons, ih, List.filter_cons]
    unfold statsStep
    cases h : e.status <;> simp [h] <;> omega

theorem statsFold_approved (l : List WhopEntry) :
    ∀ st : SubmissionStats, (l.foldl statsStep st).approved =
      st.approved + (l.filter (fun e => decide (e.status = EntryStatus.approved))).length := by
  induction l with
  | nil => intro st; simp
  | cons e rest ih =>
    intro st
    rw [List.foldl_cons, ih, List.filter_cons]
    unfold statsStep
    cases h : e.status <;> simp [h] <;> omega

theorem statsFold_rejected (l : List WhopEntry) :
    ∀ st : SubmissionStats, (l.foldl statsStep st).rejected =
      st.rejected + (l.filter (fun e => decide (e.status = EntryStatus.denied))).length := by
  induction l with
  | nil => intro st; simp
  | cons e rest ih =>
    intro st
    rw [List.foldl_cons, ih, List.filter_cons]
    unfold statsStep
    cases h : e.status <;> simp [h] <;> omega

theorem statsFold_flagged (l : List WhopEntry) :
    ∀ st : SubmissionStats, (l.foldl statsStep st).flagged =
      st.flagged + (l.filter (fun e => decide (e.status = EntryStatus.flagged))).length := by
  induction l with
  | nil => intro st; simp
  | cons e rest ih =>
    intro st
    rw [List.foldl_cons, ih, List.filter_cons]
    unfold statsStep
    cases h : e.status <;> simp [h] <;> omega

theorem statsFold_totalViews (l : List WhopEntry) :
    ∀ st : SubmissionStats, (l.foldl statsStep st).totalViews =
      st.totalViews +
        ((l.filter (fun e => decide (e.status = EntryStatus.approved))).map
          (fun e => jsOr e.view_count 0)).sum := by
  induction l with
  | nil => intro st; simp
  | cons e rest ih =>
    intro st
    rw [List.foldl_cons, ih, List.filter_cons]
    unfold statsStep
    cases h : e.status <;> simp [h] <;> ring

theorem statsFilter_partition (l : List WhopEntry)
    (hnp : ∀ e ∈ l, e.status ≠ EntryStatus.paid) :
    (l.filter (fun e => decide (e.status = EntryStatus.pending))).length +
      (l.filter (fun e => decide (e.status = EntryStatus.approved))).length +
      (l.filter (fun e => decide (e.status = EntryStatus.denied))).length +
      (l.filter (fun e => decide (e.status = EntryStatus.flagged))).length = l.length := by
  induction l with
  | nil => simp
  | cons e rest ih =>
    have hne : e.status ≠ EntryStatus.paid := hnp e (List.mem_cons_self e rest)
    have ihr := ih (fun z hz => hnp z (List.mem_cons_of_mem e hz))
    simp only [List.filter_cons, List.length_cons]
    cases h : e.status <;> simp [h] at hne ⊢ <;> omega

/-- C6 (amended): for every collection (the empty one included) `getStats`
returns a result where `total` is the number of fetched submissions, the four
per-status counts (`pending`, `approved`, `rejected` ← `denied`, `flagged`)
partition them (given that entries carry only the four repository statuses,
as the TS entry type declares), `totalViews` sums `view_count || 0` over
approved submissions only, and `averageViews` is `Math.round(totalViews /
approvedCount)` (`0` when nothing is approved); over zero submissions every
field is `0`.  The result record has no `approvalRate` field — the CLI
derives a percentage separately. -/
theorem getStats_aggregates (s : RepoState) (experienceId : Option String)
    (hnp : ∀ e ∈ statsList s experienceId, e.status ≠ EntryStatus.paid) :
    (getStats s experienceId).total = (statsList s experienceId).length ∧
    (getStats s experienceId).pending + (getStats s experienceId).approved +
      (getStats s experienceId).rejected + (getStats s experienceId).flagged =
      (getStats s experienceId).total ∧
    (getStats s experienceId).totalViews =
      (((statsList s experienceId).filter
          (fun e => decide (e.status = EntryStatus.approved))).map
        (fun e => jsOr e.view_count 0)).sum ∧
    (getStats s experienceId).averageViews =
      (if 0 < (getStats s experienceId).approved
       then ((jsRound ((getStats s experienceId).totalViews /
          ((getStats s experienceId).approved : ℚ))) : ℚ)
       else 0) ∧
    getStats { entries := [], failing := [] } none = emptyStats := by
  unfold getStats
  simp only [statsFold_total, statsFold_pending, statsFold_approved, statsFold_rejected,
    statsFold_flagged, statsFold_totalViews, Nat.zero_add, zero_add]
  refine ⟨trivial, ?_, trivial, trivial, ?_⟩
  · exact statsFilter_partition (statsList s experienceId) hnp
  · simp [statsList, emptyStats]

/-- C6 witness: the aggregates hold on `stateC6` (4 entries: 2 approved with
1 and 2 views, 1 pending, 1 denied). -/
theorem getStats_aggregates_w :
    (getStats stateC6 none).total = (statsList stateC6 none).length ∧
    (getStats stateC6 none).pending + (getStats stateC6 none).approved +
      (getStats stateC6 none).rejected + (getStats stateC6 none).flagged =
      (getStats stateC6 none).total ∧
    (getStats stateC6 none).totalViews =
      (((statsList stateC6 none).filter
          (fun e => decide (e.status = EntryStatus.approved))).map
        (fun e => jsOr e.view_count 0)).sum ∧
    (getStats stateC6 none).averageViews =
      (if 0 < (getStats stateC6 none).approved
       then ((jsRound ((getStats stateC6 none).totalViews /
          ((getStats stateC6 none).approved : ℚ))) : ℚ)
       else 0) ∧
    getStats { entries := [], failing := [] } none = emptyStats :=
  getStats_aggregates stateC6 none (by
    intro e he
    simp [statsList, stateC6, entryC6a, entryC6b, entryC6c, entryC6d] at he
    rcases he with h | h | h | h <;> subst h <;> simp [entryC6a, entryC6b, entryC6c, entryC6d])

theorem find?_map_idp (g : WhopEntry → WhopEntry) (hg : ∀ x, (g x).id = x.id)
    (zid : String) : ∀ l : List WhopEntry,
    (l.map g).find? (fun x => decide (x.id = zid)) =
      (l.find? (fun x => decide (x.id = zid))).map g := by
  intro l
  induction l with
  | nil => simp
  | cons a rest ih =>
    simp only [List.map_cons, List.find?_cons]
    rw [hg a]
    cases h : decide (a.id = zid) with
    | true => simp
    | false => simpa using ih

theorem filter_length_partition (p : WhopEntry → Bool) (l : List WhopEntry) :
    (l.filter p).length + (l.filter (fun e => !(p e))).length = l.length := by
  induction l with
  | nil => simp
  | cons a rest ih =>
    simp only [List.filter_cons]
    cases h : p a <;> simp [h] <;> omega

theorem nodup_find_self : ∀ l : List WhopEntry, (l.map (fun e => e.id)).Nodup →
    ∀ e ∈ l, l.find? (fun x => decide (x.id = e.id)) = some e := by
  intro l
  induction l with
  | nil => intro hnodup e he; cases he
  | cons a rest ih =>
    intro hnodup e he
    rw [List.map_cons] at hnodup
    have h0 := List.nodup_cons.mp hnodup
    rcases List.mem_cons.mp he with h | h
    · subst h
      simp [List.find?_cons]
    · have hne : ¬ a.id = e.id := fun hc =>
        h0.1 (hc ▸ List.mem_map_of_mem (fun e => e.id) h)
      have hrest := ih h0.2 e h
      simp [List.find?_cons, hne, hrest]

theorem applyLimit_sublist (limit : Option ℕ) (l : List WhopEntry) :
    (applyLimit limit l).Sublist l := by
  unfold applyLimit
  cases limit with
  | none => exact List.Sublist.refl l
  | some n =>
    by_cases h : n = 0
    · simp [h]
    · simp [h, List.take_sublist]

theorem toProcess_sublist (s : RepoState) (experienceId : String)
    (options : BulkReviewOptions) :
    (toProcess s experienceId options).Sublist s.entries := by
  unfold toProcess getPendingSubmissions
  exact (applyLimit_sublist _ _).trans (List.filter_sublist _)

theorem toProcess_pending (s : RepoState) (experienceId : String)
    (options : BulkReviewOptions) :
    ∀ e ∈ toProcess s experienceId options, e.status = EntryStatus.pending := by
  intro e he
  have hmem : e ∈ getPendingSubmissions s (some experienceId) :=
    (applyLimit_sublist options.limit _).subset he
  have := List.of_mem_filter hmem
  simp only [Bool.and_eq_true, decide_eq_true_eq] at this
  exact this.1

theorem approveSubmission_repo_fail (s : RepoState) (e : WhopEntry)
    (options : ApprovalOptions) (now : ℚ) (cfg : ClipperConfig)
    (hfind : findEntry s e.id = some e)
    (hmem : e.id ∈ s.failing) :
    approveSubmission s e.id options now cfg =
      (Except.error (ServiceError.repositoryError e.id), s) := by
  unfold approveSubmission repoGet repoApprove
  rw [hfind]
  simp [hmem]

theorem approveSubmission_ok (s : RepoState) (e : WhopEntry) (options : ApprovalOptions)
    (now : ℚ) (cfg : ClipperConfig)
    (hfind : findEntry s e.id = some e)
    (hmem : e.id ∉ s.failing)
    (hpend : e.status = EntryStatus.pending) :
    approveSubmission s e.id options now cfg =
      (Except.ok
        ({ e with
            status := EntryStatus.approved
            payout_amount := some (calculateSubmissionPayout
              (options.viewCount.getD (e.view_count.getD 0))
              options.campaignConfig cfg).finalPayout
            updated_at := now },
          { calculateSubmissionPayout (options.viewCount.getD (e.view_count.getD 0))
              options.campaignConfig cfg with submissionId := e.id }),
        { s with
            entries := s.entries.map (fun x =>
              if x.id = e.id then
                { x with
                    status := EntryStatus.approved
                    payout_amount := some (calculateSubmissionPayout
                      (options.viewCount.getD (e.view_count.getD 0))
                      options.campaignConfig cfg).finalPayout
                    updated_at := now }
              else x) }) := by
  unfold approveSubmission repoGet repoApprove
  rw [hfind]
  simp [hmem, hpend]

theorem bulkReviewGo_spec (options : BulkReviewOptions) (cfg : ClipperConfig)
    (cutoffTime minViewCount now : ℚ) (fl : List String) :
    ∀ (l : List WhopEntry) (s : RepoState) (acc : BulkResults),
      s.failing = fl →
      (∀ z ∈ l, findEntry s z.id = some z) →
      (∀ z ∈ l, z.status = EntryStatus.pending) →
      (l.map (fun e => e.id)).Nodup →
      (bulkReviewGo options cfg cutoffTime minViewCount now l s acc).1.rejected =
          acc.rejected ∧
      (bulkReviewGo options cfg cutoffTime minViewCount now l s acc).1.approved =
        acc.approved + (l.filter (fun e => sweepEligible cutoffTime minViewCount e &&
          !(decide (e.id ∈ fl)))).length ∧
      (bulkReviewGo options cfg cutoffTime minViewCount now l s acc).1.skipped =
        acc.skipped + (l.filter (fun e => !(sweepEligible cutoffTime minViewCount e &&
          !(decide (e.id ∈ fl))))).length ∧
      (bulkReviewGo options cfg cutoffTime minViewCount now l s acc).1.totalPayout =
        acc.totalPayout + ((l.filter (fun e => sweepEligible cutoffTime minViewCount e &&
          !(decide (e.id ∈ fl)))).map (sweepPayout options cfg)).sum := by
  intro l
  induction l with
  | nil =>
    intro s acc hfl hfind hpend hnodup
    simp [bulkReviewGo]
  | cons e rest ih =>
    intro s acc hfl hfind hpend hnodup
    rw [List.map_cons] at hnodup
    have h0 := List.nodup_cons.mp hnodup
    have hfe := hfind e (List.mem_cons_self e rest)
    have hpe := hpend e (List.mem_cons_self e rest)
    by_cases helig : sweepEligible cutoffTime minViewCount e = true
    · by_cases hmem : e.id ∈ fl
      · have happ := approveSubmission_repo_fail s e
          { campaignConfig := options.campaignConfig, viewCount := none, note := none }
          now cfg hfe (by rw [hfl]; exact hmem)
        have hstep : bulkReviewGo options cfg cutoffTime minViewCount now (e :: rest) s acc =
            bulkReviewGo options cfg cutoffTime minViewCount now rest s
              { acc with skipped := acc.skipped + 1 } := by
          simp [bulkReviewGo, helig, happ]
        have hrec := ih s { acc with skipped := acc.skipped + 1 } hfl
          (fun z hz => hfind z (List.mem_cons_of_mem e hz))
          (fun z hz => hpend z (List.mem_cons_of_mem e hz)) h0.2
        rw [hstep]
        refine ⟨by simpa using hrec.1, ?_, ?_, ?_⟩
        · simpa [List.filter_cons, helig, hmem] using hrec.2.1
        · have := hrec.2.2.1
          simp [List.filter_cons, helig, hmem] at this ⊢
          omega
        · simpa [List.filter_cons, helig, hmem] using hrec.2.2.2
      · have happ := approveSubmission_ok s e
          { campaignConfig := options.campaignConfig, viewCount := none, note := none }
          now cfg hfe (by rw [hfl]; exact hmem) hpe
        have hstep : bulkReviewGo options cfg cutoffTime minViewCount now (e :: rest) s acc =
            bulkReviewGo options cfg cutoffTime minViewCount now rest
              { s with entries := s.entries.map (fun x =>
                  if x.id = e.id then
                    { x with
                        status := EntryStatus.approved
                        payout_amount := some (calculateSubmissionPayout
                          (e.view_count.getD 0) options.campaignConfig cfg).finalPayout
                        updated_at := now }
                  else x) }
              { acc with
                  approved := acc.approved + 1
                  totalPayout := acc.totalPayout + sweepPayout options cfg e } := by
          simp [bulkReviewGo, helig, happ, sweepPayout]
        have hfind2 : ∀ z ∈ rest,
            findEntry { s with entries := s.entries.map (fun x =>
                if x.id = e.id then
                  { x with
                      status := EntryStatus.approved
                      payout_amount := some (calculateSubmissionPayout
                        (e.view_count.getD 0) options.campaignConfig cfg).finalPayout
                      updated_at := now }
                else x) } z.id = some z := by
          intro z hz
          have hzne : ¬ z.id = e.id := by
            intro hc
            exact h0.1 (hc ▸ List.mem_map_of_mem (fun e => e.id) hz)
          have hgz := hfind z (List.mem_cons_of_mem e hz)
          unfold findEntry at hgz ⊢
          rw [find?_map_idp _ (by intro x; by_cases hx : x.id = e.id <;> simp [hx]) z.id
            s.entries, hgz]
          simp [hzne]
        have hrec := ih
          { s with entries := s.entries.map (fun x =>
              if x.id = e.id then
                { x with
                    status := EntryStatus.approved
                    payout_amount := some (calculateSubmissionPayout
                      (e.view_count.getD 0) options.campaignConfig cfg).finalPayout
                    updated_at := now }
              else x) }
          { acc with
              approved := acc.approved + 1
              totalPayout := acc.totalPayout + sweepPayout options cfg e }
          (by simpa using hfl) hfind2
          (fun z hz => hpend z (List.mem_cons_of_mem e hz)) h0.2
        rw [hstep]
        refine ⟨by simpa using hrec.1, ?_, ?_, ?_⟩
        · have := hrec.2.1
          simp [List.filter_cons, helig, hmem] at this ⊢
          omega
        · simpa [List.filter_cons, helig, hmem] using hrec.2.2.1
        · have := hrec.2.2.2
          simp [List.filter_cons, helig, hmem] at this ⊢
          linarith
    · have hb : sweepEligible cutoffTime minViewCount e = false := by
        simpa using helig
      have hstep : bulkReviewGo options cfg cutoffTime minViewCount now (e :: rest) s acc =
          bulkReviewGo options cfg cutoffTime minViewCount now rest s
            { acc with skipped := acc.skipped + 1 } := by
        simp [bulkReviewGo, hb]
      have hrec := ih s { acc with skipped := acc.skipped + 1 } hfl
        (fun z hz => hfind z (List.mem_cons_of_mem e hz))
        (fun z hz => hpend z (List.mem_cons_of_mem e hz)) h0.2
      rw [hstep]
      refine ⟨by simpa using hrec.1, ?_, ?_, ?_⟩
      · simpa [List.filter_cons, hb] using hrec.2.1
      · have := hrec.2.2.1
        simp [List.filter_cons, hb] at this ⊢
        omega
      · simpa [List.filter_cons, hb] using hrec.2.2.2

/-- C4 (amended): one sweep processes every batch item exactly once — a
per-item approval failure does not abort the remaining items — but failures
are not reported individually: the result carries only the aggregates
(`rejected` is always `0`, `approved + skipped` equals the batch size,
`approved` counts exactly the eligible items whose remote approve succeeded,
and `totalPayout` sums `finalPayout` over those items); a failing item is
folded into `skipped` and no `errors` list exists. -/
theorem bulkReview_failure_isolation (s : RepoState) (experienceId : String)
    (options : BulkReviewOptions) (now : ℚ) (cfg : ClipperConfig)
    (hnodup : (s.entries.map (fun e => e.id)).Nodup) :
    (bulkReview s experienceId options now cfg).1.rejected = 0 ∧
    (bulkReview s experienceId options now cfg).1.approved +
      (bulkReview s experienceId options now cfg).1.skipped =
      (toProcess s experienceId options).length ∧
    (bulkReview s experienceId options now cfg).1.approved =
      ((toProcess s experienceId options).filter (fun e =>
        sweepEligible (sweepCutoff options cfg now) (sweepMinViews options) e &&
          !(decide (e.id ∈ s.failing)))).length ∧
    (bulkReview s experienceId options now cfg).1.totalPayout =
      (((toProcess s experienceId options).filter (fun e =>
        sweepEligible (sweepCutoff options cfg now) (sweepMinViews options) e &&
          !(decide (e.id ∈ s.failing)))).map (sweepPayout options cfg)).sum := by
  have hsub := toProcess_sublist s experienceId options
  have hfind : ∀ z ∈ toProcess s experienceId options, findEntry s z.id = some z :=
    fun z hz => nodup_find_self s.entries hnodup z (hsub.subset hz)
  have hnodup2 : ((toProcess s experienceId options).map (fun e => e.id)).Nodup :=
    List.Nodup.sublist (List.Sublist.map (fun e => e.id) hsub) hnodup
  have h := bulkReviewGo_spec options cfg (sweepCutoff options cfg now)
    (sweepMinViews options) now s.failing (toProcess s experienceId options) s
    { approved := 0, rejected := 0, skipped := 0, totalPayout := 0 } rfl hfind
    (toProcess_pending s experienceId options) hnodup2
  have hpart := filter_length_partition (fun e =>
    sweepEligible (sweepCutoff options cfg now) (sweepMinViews options) e &&
      !(decide (e.id ∈ s.failing))) (toProcess s experienceId options)
  unfold bulkReview
  refine ⟨by simpa using h.1, ?_, by simpa using h.2.1, by simpa using h.2.2.2⟩
  have h1 := h.2.1
  have h2 := h.2.2.1
  simp only [Nat.zero_add] at h1 h2
  rw [h1, h2]
  exact hpart

/-- C4 witness: the aggregate characterisation holds on the 3-entry batch of
`stateC4fail` where item `e2` fails on approve. -/
theorem bulkReview_failure_isolation_w :
    (bulkReview stateC4fail "exp" optionsAllDefaults 720000000 defaultClipperConfig).1.rejected
        = 0 ∧
    (bulkReview stateC4fail "exp" optionsAllDefaults 720000000 defaultClipperConfig).1.approved +
      (bulkReview stateC4fail "exp" optionsAllDefaults 720000000 defaultClipperConfig).1.skipped =
      (toProcess stateC4fail "exp" optionsAllDefaults).length ∧
    (bulkReview stateC4fail "exp" optionsAllDefaults 720000000 defaultClipperConfig).1.approved =
      ((toProcess stateC4fail "exp" optionsAllDefaults).filter (fun e =>
        sweepEligible (sweepCutoff optionsAllDefaults defaultClipperConfig 720000000)
            (sweepMinViews optionsAllDefaults) e &&
          !(decide (e.id ∈ stateC4fail.failing)))).length ∧
    (bulkReview stateC4fail "exp" optionsAllDefaults 720000000
        defaultClipperConfig).1.totalPayout =
      (((toProcess stateC4fail "exp" optionsAllDefaults).filter (fun e =>
        sweepEligible (sweepCutoff optionsAllDefaults defaultClipperConfig 720000000)
            (sweepMinViews optionsAllDefaults) e &&
          !(decide (e.id ∈ stateC4fail.failing)))).map
        (sweepPayout optionsAllDefaults defaultClipperConfig)).sum :=
  bulkReview_failure_isolation stateC4fail "exp" optionsAllDefaults 720000000
    defaultClipperConfig
    (by simp [stateC4fail, entryC4a, entryC4b, entryC4c,
      show ("e1" : String) ≠ "e2" from by decide,
      show ("e1" : String) ≠ "e3" from by decide,
      show ("e2" : String) ≠ "e3" from by decide])

/-- C5 (amended): a pending submission in the batch is approved exactly when
its age strictly exceeds the threshold (`createdAt < now - threshold` — an
entry whose age equals the threshold is skipped, not approved) and its view
count meets `minViewCount`; every other submission is counted as skipped,
and the sweep never rejects (shown here with no repository failures and
distinct entry ids, so approval outcomes equal the eligibility test). -/
theorem bulkReview_eligibility_policy (s : RepoState) (experienceId : String)
    (options : BulkReviewOptions) (now : ℚ) (cfg : ClipperConfig)
    (hnodup : (s.entries.map (fun e => e.id)).Nodup)
    (hfail : s.failing = []) :
    (bulkReview s experienceId options now cfg).1.approved =
      ((toProcess s experienceId options).filter
        (sweepEligible (sweepCutoff options cfg now) (sweepMinViews options))).length ∧
    (bulkReview s experienceId options now cfg).1.skipped =
      ((toProcess s experienceId options).filter (fun e =>
        !(sweepEligible (sweepCutoff options cfg now) (sweepMinViews options) e))).length ∧
    (bulkReview s experienceId options now cfg).1.rejected = 0 := by
  have hsub := toProcess_sublist s experienceId options
  have hfind : ∀ z ∈ toProcess s experienceId options, findEntry s z.id = some z :=
    fun z hz => nodup_find_self s.entries hnodup z (hsub.subset hz)
  have hnodup2 : ((toProcess s experienceId options).map (fun e => e.id)).Nodup :=
    List.Nodup.sublist (List.Sublist.map (fun e => e.id) hsub) hnodup
  have h := bulkReviewGo_spec options cfg (sweepCutoff options cfg now)
    (sweepMinViews options) now s.failing (toProcess s experienceId options) s
    { approved := 0, rejected := 0, skipped := 0, totalPayout := 0 } rfl hfind
    (toProcess_pending s experienceId options) hnodup2
  have hcongr1 : (toProcess s experienceId options).filter (fun e =>
      sweepEligible (sweepCutoff options cfg now) (sweepMinViews options) e &&
        !(decide (e.id ∈ s.failing))) =
      (toProcess s experienceId options).filter
        (sweepEligible (sweepCutoff options cfg now) (sweepMinViews options)) := by
    apply List.filter_congr
    intro a _
    simp [hfail]
  have hcongr2 : (toProcess s experienceId options).filter (fun e =>
      !(sweepEligible (sweepCutoff options cfg now) (sweepMinViews options) e &&
        !(decide (e.id ∈ s.failing)))) =
      (toProcess s experienceId options).filter (fun e =>
        !(sweepEligible (sweepCutoff options cfg now) (sweepMinViews options) e)) := by
    apply List.filter_congr
    intro a _
    simp [hfail]
  unfold bulkReview
  refine ⟨?_, ?_, by simpa using h.1⟩
  · have h1 := h.2.1
    rw [hcongr1] at h1
    simpa using h1
  · have h2 := h.2.2.1
    rw [hcongr2] at h2
    simpa using h2

/-- C5 witness: on `stateC5` (single pending entry exactly 48 hours old at
`now`) the eligibility characterisation holds — nothing is eligible, so the
sweep approves 0 and skips 1. -/
theorem bulkReview_eligibility_policy_w :
    (bulkReview stateC5 "exp" optionsAllDefaults 172800000 defaultClipperConfig).1.approved =
      ((toProcess stateC5 "exp" optionsAllDefaults).filter
        (sweepEligible (sweepCutoff optionsAllDefaults defaultClipperConfig 172800000)
          (sweepMinViews optionsAllDefaults))).length ∧
    (bulkReview stateC5 "exp" optionsAllDefaults 172800000 defaultClipperConfig).1.skipped =
      ((toProcess stateC5 "exp" optionsAllDefaults).filter (fun e =>
        !(sweepEligible (sweepCutoff optionsAllDefaults defaultClipperConfig 172800000)
          (sweepMinViews optionsAllDefaults) e))).length ∧
    (bulkReview stateC5 "exp" optionsAllDefaults 172800000 defaultClipperConfig).1.rejected
        = 0 :=
  bulkReview_eligibility_policy stateC5 "exp" optionsAllDefaults 172800000 defaultClipperConfig
    (by simp [stateC5, entryC5]) rfl
